import Mathlib

/-!
Shallow embedding of the `notify` Go package (`notification.go`), a client
for the freedesktop notification service over a message bus.

The bus transport is modelled abstractly: a connection maps an object
request (destination, path) to a bus object, and a bus object maps a
method call (method name, flags, argument list) to a call result, which is
the pair of an optional transport/remote error and a reply body.  Errors
are modelled as strings.  Go slices distinguish nil from empty; the type
`GoStrSlice` keeps that distinction where a claim depends on it.
-/

/-- A dynamically typed bus variant value, as carried in notification
hints: a type signature together with an encoded payload.  The client
only passes variants through, so the payload representation is opaque. -/
structure Variant where
  sig : String
  val : String
deriving DecidableEq, Repr

/-- A value in a bus call argument list or reply body, covering the wire
types this client sends and receives. -/
inductive DBusValue where
  | str (s : String)
  | u32 (v : Nat)
  | i32 (v : Int)
  | strList (xs : List String)
  | dict (m : List (String × Variant))
deriving DecidableEq, Repr

/-- The result of a bus method call: `err` is the transport/remote fault
(if any) and `body` the reply payload, mirroring `dbus.Call.Err` and
`dbus.Call.Body`. -/
structure CallResult where
  err : Option String
  body : List DBusValue
deriving DecidableEq, Repr

/-- A proxy for a remote bus object: `call` issues a method call with a
method name, flags, and a positional argument list. -/
structure BusObject where
  call : String → Nat → List DBusValue → CallResult

/-- A bus connection: `object` obtains a proxy for a destination and an
object path, mirroring `dbus.Conn.Object`. -/
structure Conn where
  object : String → String → BusObject

-- The constants of notification.go.

/-- The DBUS object path. -/
def objectPath : String := "/org/freedesktop/Notifications"

/-- The DBUS interface. -/
def dbusNotificationsInterface : String := "org.freedesktop.Notifications"

def getCapabilities : String := "org.freedesktop.Notifications.GetCapabilities"

def closeNotification : String := "org.freedesktop.Notifications.CloseNotification"

def notify : String := "org.freedesktop.Notifications.Notify"

def getServerInformation : String := "org.freedesktop.Notifications.GetServerInformation"

/-- `notifier` implements Notificator: its single field is the bus
connection handle. -/
structure notifier where
  conn : Conn

/-- `New` creates a new Notificator using `conn`. -/
def New (conn : Conn) : notifier := ⟨conn⟩

/-- `Notification` holds all information needed for creating a
notification.  `ReplacesID` is a `uint32` (modelled as a `Nat` below
`2 ^ 32` on the wire) and `ExpireTimeout` an `int32`. -/
structure Notification where
  AppName : String
  ReplacesID : Nat
  AppIcon : String
  Summary : String
  Body : String
  Actions : List String
  Hints : List (String × Variant)
  ExpireTimeout : Int
deriving DecidableEq, Repr

/-- `ServerInformation` is a holder for information returned by the
GetServerInformation call. -/
structure ServerInformation where
  Name : String
  Vendor : String
  Version : String
  SpecVersion : String
deriving DecidableEq, Repr

/-- A Go `[]string` value: either the nil slice (the zero value of the
type) or a materialised slice with contents. -/
inductive GoStrSlice where
  | nil
  | mk (xs : List String)
deriving DecidableEq, Repr

-- Decode ("Store") semantics of the external dbus library.  These are not
-- part of this repository; they are modelled from the spec: a decode
-- fault is a reply whose payload does not match the expected
-- shape/arity/type, the fault is reported as an error, and destinations
-- not yet decoded retain their zero value.

/-- Error message for a reply body whose arity does not match the number
of store destinations. -/
def errStoreLength : String := "dbus.Store: mismatched length of body and destinations"

/-- Error message for a reply element whose type does not match its store
destination. -/
def errStoreType : String := "dbus.Store: type mismatch"

/-- Modelled from the spec: decoding a reply body into a single unsigned
32-bit destination (external dbus library `Call.Store` with one `*uint32`
argument).  Any body other than a single `u32` value is a decode fault. -/
def storeUint32 : List DBusValue → Except String Nat
  | [DBusValue.u32 v] => Except.ok v
  | [_] => Except.error errStoreType
  | _ => Except.error errStoreLength

/-- Modelled from the spec: decoding a reply body into a single sequence
of strings (external dbus library `Call.Store` with one `*[]string`
argument).  Any body other than a single string array is a decode fault. -/
def storeStringList : List DBusValue → Except String (List String)
  | [DBusValue.strList xs] => Except.ok xs
  | [_] => Except.error errStoreType
  | _ => Except.error errStoreLength

/-- Modelled from the spec: decoding one reply element into a string
destination succeeds exactly when the element is a string. -/
def storeString : DBusValue → Option String
  | DBusValue.str s => some s
  | _ => none

/-- Modelled from the spec: decoding a reply body into four positional
string destinations (external dbus library `Call.Store` with four
`*string` arguments).  An arity mismatch is a fault before any
destination is written; otherwise the elements are decoded left to right
and the first type mismatch stops the decode, so destinations not yet
decoded retain their zero value (the empty string). -/
def storeFourStrings : List DBusValue → ServerInformation × Option String
  | [a, b, c, d] =>
    match storeString a with
    | none => (⟨"", "", "", ""⟩, some errStoreType)
    | some sa =>
      match storeString b with
      | none => (⟨sa, "", "", ""⟩, some errStoreType)
      | some sb =>
        match storeString c with
        | none => (⟨sa, sb, "", ""⟩, some errStoreType)
        | some sc =>
          match storeString d with
          | none => (⟨sa, sb, sc, ""⟩, some errStoreType)
          | some sd => (⟨sa, sb, sc, sd⟩, none)
  | _ => (⟨"", "", "", ""⟩, some errStoreLength)

/-- The Go conversion `uint32(id)` applied to an `int`: the low 32 bits
of `id`, that is `id` reduced modulo `2 ^ 32`.  It is total: no input is
rejected. -/
def uint32ofInt (i : Int) : Nat := (i % (2 ^ 32 : Int)).toNat

/-- `SendNotification` sends a notification to the notification server
(the free convenience function).  It obtains the object proxy, issues the
`Notify` call with the eight fields of `n` as positional arguments, and
decodes the reply into a `uint32` id; `var ret uint32` starts at the zero
value `0` and is untouched when the decode faults. -/
def SendNotification (conn : Conn) (n : Notification) : Nat × Option String :=
  let obj := conn.object dbusNotificationsInterface objectPath
  let call := obj.call notify 0
    [DBusValue.str n.AppName, DBusValue.u32 n.ReplacesID, DBusValue.str n.AppIcon,
     DBusValue.str n.Summary, DBusValue.str n.Body, DBusValue.strList n.Actions,
     DBusValue.dict n.Hints, DBusValue.i32 n.ExpireTimeout]
  match call.err with
  | some e => (0, some e)
  | none =>
    match storeUint32 call.body with
    | Except.error e => (0, some e)
    | Except.ok v => (v, none)

/-- The `SendNotification` method of `notifier` (Go name
`notifier.SendNotification`): it delegates to the free function on the
stored connection. -/
def notifier.sendNotification (self : notifier) (n : Notification) : Nat × Option String :=
  SendNotification self.conn n

/-- `GetCapabilities` gets the capabilities of the notification server.
On a call fault it returns the literal `[]string{}` (an empty, non-nil
slice) with the fault; otherwise it decodes into `var ret []string`,
whose zero value is the nil slice and which is untouched when the decode
faults. -/
def notifier.GetCapabilities (self : notifier) : GoStrSlice × Option String :=
  let obj := self.conn.object dbusNotificationsInterface objectPath
  let call := obj.call getCapabilities 0 []
  match call.err with
  | some e => (GoStrSlice.mk [], some e)
  | none =>
    match storeStringList call.body with
    | Except.error e => (GoStrSlice.nil, some e)
    | Except.ok xs => (GoStrSlice.mk xs, none)

/-- `CloseNotification` causes a notification to be forcefully closed and
removed from the view.  The surface type of `id` is a generic `int`; it
is narrowed with `uint32(id)` for transmission.  The result is `true`
exactly when the call reports no fault; the reply body is never
inspected. -/
def notifier.CloseNotification (self : notifier) (id : Int) : Bool × Option String :=
  let obj := self.conn.object dbusNotificationsInterface objectPath
  let call := obj.call closeNotification 0 [DBusValue.u32 (uint32ofInt id)]
  match call.err with
  | some e => (false, some e)
  | none => (true, none)

/-- `GetServerInformation` returns the information on the server, decoding
four positional strings into `ret.Name`, `ret.Vendor`, `ret.Version`,
`ret.SpecVersion` in that order.  (The Go source also guards against a
nil object proxy; the underlying library never returns one, and the model
makes the proxy total, so that branch is unreachable.) -/
def notifier.GetServerInformation (self : notifier) : ServerInformation × Option String :=
  let obj := self.conn.object dbusNotificationsInterface objectPath
  let call := obj.call getServerInformation 0 []
  match call.err with
  | some e => (⟨"", "", "", ""⟩, some e)
  | none => storeFourStrings call.body

-- State-passing renderings of the four methods.  The Go method bodies
-- contain no assignment to the receiver or to `self.conn`, so the
-- straight-line translation threads the receiver through unchanged.

/-- State-passing form of the `SendNotification` method. -/
def notifier.sendNotificationSt (self : notifier) (n : Notification) :
    (Nat × Option String) × notifier :=
  (SendNotification self.conn n, self)

/-- State-passing form of the `GetCapabilities` method. -/
def notifier.getCapabilitiesSt (self : notifier) : (GoStrSlice × Option String) × notifier :=
  (self.GetCapabilities, self)

/-- State-passing form of the `CloseNotification` method. -/
def notifier.closeNotificationSt (self : notifier) (id : Int) :
    (Bool × Option String) × notifier :=
  (self.CloseNotification id, self)

/-- State-passing form of the `GetServerInformation` method. -/
def notifier.getServerInformationSt (self : notifier) :
    (ServerInformation × Option String) × notifier :=
  (self.GetServerInformation, self)

-- Test doubles for the remote side.

/-- A connection that records the full request: every call is answered by
`f` applied to the destination, path, method, flags and argument list. -/
def spyConn (f : String → String → String → Nat → List DBusValue → CallResult) : Conn :=
  ⟨fun d p => ⟨fun m fl args => f d p m fl args⟩⟩

/-- A connection whose every call returns the fixed result `r`. -/
def constConn (r : CallResult) : Conn :=
  spyConn fun _ _ _ _ _ => r

/-- A remote double that echoes the second positional argument (the
`replaces_id` of a `Notify` call) back as the reply payload. -/
def echoReplacesConn : Conn :=
  ⟨fun _ _ => ⟨fun _ _ args => ⟨none, [args.getD 1 (DBusValue.u32 0)]⟩⟩⟩

-- Claims.

/-- C1: for every remote behaviour `f` and every notification `n`,
`SendNotification` issues exactly one `Notify` call on the notification
destination and object path whose positional arguments are exactly the
eight fields of `n` in the fixed order AppName, ReplacesID, AppIcon,
Summary, Body, Actions, Hints, ExpireTimeout — no field omitted,
reordered or transformed — and its result is computed from that single
call's reply alone. -/
theorem sendNotification_transmits_fields_in_order
    (f : String → String → String → Nat → List DBusValue → CallResult) (n : Notification) :
    SendNotification (spyConn f) n =
      (let r := f dbusNotificationsInterface objectPath notify 0
          [DBusValue.str n.AppName, DBusValue.u32 n.ReplacesID, DBusValue.str n.AppIcon,
           DBusValue.str n.Summary, DBusValue.str n.Body, DBusValue.strList n.Actions,
           DBusValue.dict n.Hints, DBusValue.i32 n.ExpireTimeout];
       match r.err with
       | some e => ((0 : Nat), some e)
       | none =>
         match storeUint32 r.body with
         | Except.error e => (0, some e)
         | Except.ok v => (v, none)) := rfl

/-- C2: a reply carrying a single unsigned 32-bit integer `v` is decoded
without alteration: the result is `(v, none)`; in particular a double
echoing a nonzero ReplacesID `X` yields `X`, and a double returning a
fresh id greater than zero for ReplacesID `= 0` yields that id, which is
greater than zero. -/
theorem sendNotification_returns_decoded_id (n : Notification) (v : Nat) (hv : v < 2 ^ 32) :
    SendNotification (constConn ⟨none, [DBusValue.u32 v]⟩) n = (v, none) ∧
    (n.ReplacesID ≠ 0 →
      SendNotification echoReplacesConn n = (n.ReplacesID, none)) ∧
    (∀ fresh : Nat, 0 < fresh → n.ReplacesID = 0 →
      SendNotification (constConn ⟨none, [DBusValue.u32 fresh]⟩) n = (fresh, none) ∧
      0 < (SendNotification (constConn ⟨none, [DBusValue.u32 fresh]⟩) n).1) := by
  refine ⟨rfl, fun _ => rfl, fun fresh hf _ => ⟨rfl, ?_⟩⟩
  exact hf

/-- C2 witness: decoding the concrete reply `7` at a concrete
notification. -/
theorem sendNotification_returns_decoded_id_witness :
    SendNotification (constConn ⟨none, [DBusValue.u32 7]⟩)
      ⟨"a", 0, "i", "s", "b", [], [], 0⟩ = (7, none) :=
  (sendNotification_returns_decoded_id ⟨"a", 0, "i", "s", "b", [], [], 0⟩ 7 (by norm_num)).1

/-- C3 counterexample: on a decode fault (here an empty reply body),
`GetCapabilities` returns the nil slice — the untouched zero value of
`var ret []string` — and the nil slice is not the empty zero-length
slice the claim asserts. -/
theorem getCapabilities_decode_fault_not_empty_slice :
    notifier.GetCapabilities ⟨constConn ⟨none, []⟩⟩ = (GoStrSlice.nil, some errStoreLength) ∧
    GoStrSlice.nil ≠ GoStrSlice.mk [] := ⟨rfl, by decide⟩

/-- C3 amended: on a decode fault `GetCapabilities` returns the error
together with the nil slice (the zero value, not a materialised empty
slice); the empty zero-length slice is what a transport fault returns. -/
theorem getCapabilities_decode_fault_returns_nil_slice (b : List DBusValue) (e te : String)
    (h : storeStringList b = Except.error e) :
    notifier.GetCapabilities ⟨constConn ⟨none, b⟩⟩ = (GoStrSlice.nil, some e) ∧
    notifier.GetCapabilities ⟨constConn ⟨some te, b⟩⟩ = (GoStrSlice.mk [], some te) := by
  constructor
  · have h0 : notifier.GetCapabilities ⟨constConn ⟨none, b⟩⟩ =
        (match storeStringList b with
         | Except.error e => (GoStrSlice.nil, some e)
         | Except.ok xs => (GoStrSlice.mk xs, none)) := rfl
    rw [h0, h]
  · rfl

/-- C3 amended witness: a reply body holding a `u32` instead of a string
array faults the decode and leaves the nil slice. -/
theorem getCapabilities_decode_fault_returns_nil_slice_witness :
    notifier.GetCapabilities ⟨constConn ⟨none, [DBusValue.u32 3]⟩⟩ =
      (GoStrSlice.nil, some errStoreType) ∧
    notifier.GetCapabilities ⟨constConn ⟨some "boom", [DBusValue.u32 3]⟩⟩ =
      (GoStrSlice.mk [], some "boom") :=
  getCapabilities_decode_fault_returns_nil_slice [DBusValue.u32 3] errStoreType "boom" rfl

/-- C4: `CloseNotification` returns `(true, none)` exactly when the call
reports no transport-level fault; on a fault it returns `false` with that
fault unmodified; an empty no-error reply (the case of an id that no
longer exists) is reported as success. -/
theorem closeNotification_success_iff_no_fault
    (f : String → String → String → Nat → List DBusValue → CallResult) (id : Int) :
    (notifier.CloseNotification ⟨spyConn f⟩ id = (true, (none : Option String)) ↔
      (f dbusNotificationsInterface objectPath closeNotification 0
        [DBusValue.u32 (uint32ofInt id)]).err = none) ∧
    (∀ e, (f dbusNotificationsInterface objectPath closeNotification 0
        [DBusValue.u32 (uint32ofInt id)]).err = some e →
      notifier.CloseNotification ⟨spyConn f⟩ id = (false, some e)) ∧
    (∀ i : Int, notifier.CloseNotification ⟨constConn ⟨none, []⟩⟩ i = (true, none)) := by
  have h0 : notifier.CloseNotification ⟨spyConn f⟩ id =
      (match (f dbusNotificationsInterface objectPath closeNotification 0
        [DBusValue.u32 (uint32ofInt id)]).err with
       | some e => (false, some e)
       | none => (true, none)) := rfl
  refine ⟨?_, ?_, fun i => rfl⟩
  · rw [h0]
    rcases hE : (f dbusNotificationsInterface objectPath closeNotification 0
        [DBusValue.u32 (uint32ofInt id)]).err with _ | e
    · simp
    · simp
  · intro e he
    rw [h0, he]

/-- C4 witness: a double answering with a remote fault makes
`CloseNotification` return `false` and that fault. -/
theorem closeNotification_success_iff_no_fault_witness :
    notifier.CloseNotification ⟨constConn ⟨some "gone", []⟩⟩ 5 = (false, some "gone") :=
  (closeNotification_success_iff_no_fault (fun _ _ _ _ _ => ⟨some "gone", []⟩) 5).2.1 "gone" rfl

/-- C5: when the reply does not decode to a single unsigned 32-bit
integer, `SendNotification` returns the zero id `0` together with the
non-nil decode error; the fault is never coerced into a success (and the
embedding is total, so no input crashes it). -/
theorem sendNotification_decode_fault_zero_id (n : Notification) (b : List DBusValue) (e : String)
    (h : storeUint32 b = Except.error e) :
    SendNotification (constConn ⟨none, b⟩) n = (0, some e) ∧
    some e ≠ (none : Option String) := by
  constructor
  · have h0 : SendNotification (constConn ⟨none, b⟩) n =
        (match storeUint32 b with
         | Except.error e => ((0 : Nat), some e)
         | Except.ok v => (v, none)) := rfl
    rw [h0, h]
  · simp

/-- C5 witness: an empty reply body (missing id field) yields id `0` and
an error. -/
theorem sendNotification_decode_fault_zero_id_witness :
    SendNotification (constConn ⟨none, []⟩) ⟨"", 0, "", "", "", [], [], -1⟩ =
      (0, some errStoreLength) ∧ some errStoreLength ≠ (none : Option String) :=
  sendNotification_decode_fault_zero_id ⟨"", 0, "", "", "", [], [], -1⟩ [] errStoreLength rfl

/-- C6: `GetServerInformation` decodes four positional strings in the
order name, vendor, version, spec_version into the fields Name, Vendor,
Version, SpecVersion; on every decode fault — a reply whose arity is not
four, or a type mismatch at the first, second, third or fourth position —
it returns a non-nil error with a partially populated result in which
every field not yet decoded holds the empty string.  The cases are
exhaustive: every reply body is either the four-string success, an arity
mismatch, or a four-element body whose first non-string element is at one
of the four positions. -/
theorem getServerInformation_decode_order_and_zero_fill (body : List DBusValue) :
    (∀ a b c d : String,
      body = [DBusValue.str a, DBusValue.str b, DBusValue.str c, DBusValue.str d] →
      notifier.GetServerInformation ⟨constConn ⟨none, body⟩⟩ = (⟨a, b, c, d⟩, none)) ∧
    (body.length ≠ 4 →
      notifier.GetServerInformation ⟨constConn ⟨none, body⟩⟩ =
        (⟨"", "", "", ""⟩, some errStoreLength)) ∧
    (∀ v1 v2 v3 v4 : DBusValue, body = [v1, v2, v3, v4] →
      (storeString v1 = none →
        notifier.GetServerInformation ⟨constConn ⟨none, body⟩⟩ =
          (⟨"", "", "", ""⟩, some errStoreType)) ∧
      (∀ s1, v1 = DBusValue.str s1 → storeString v2 = none →
        notifier.GetServerInformation ⟨constConn ⟨none, body⟩⟩ =
          (⟨s1, "", "", ""⟩, some errStoreType)) ∧
      (∀ s1 s2, v1 = DBusValue.str s1 → v2 = DBusValue.str s2 → storeString v3 = none →
        notifier.GetServerInformation ⟨constConn ⟨none, body⟩⟩ =
          (⟨s1, s2, "", ""⟩, some errStoreType)) ∧
      (∀ s1 s2 s3, v1 = DBusValue.str s1 → v2 = DBusValue.str s2 → v3 = DBusValue.str s3 →
        storeString v4 = none →
        notifier.GetServerInformation ⟨constConn ⟨none, body⟩⟩ =
          (⟨s1, s2, s3, ""⟩, some errStoreType))) ∧
    some errStoreType ≠ (none : Option String) ∧
    some errStoreLength ≠ (none : Option String) := by
  refine ⟨?_, ?_, ?_, by simp, by simp⟩
  · rintro a b c d rfl
    rfl
  · intro h
    rcases body with _ | ⟨v1, _ | ⟨v2, _ | ⟨v3, _ | ⟨v4, _ | ⟨v5, rest⟩⟩⟩⟩⟩
    · rfl
    · rfl
    · rfl
    · rfl
    · simp at h
    · rfl
  · rintro v1 v2 v3 v4 rfl
    refine ⟨?_, ?_, ?_, ?_⟩
    · intro h1
      have hh : notifier.GetServerInformation ⟨constConn ⟨none, [v1, v2, v3, v4]⟩⟩ =
          (match storeString v1 with
           | none => (⟨"", "", "", ""⟩, some errStoreType)
           | some s1 =>
             match storeString v2 with
             | none => (⟨s1, "", "", ""⟩, some errStoreType)
             | some s2 =>
               match storeString v3 with
               | none => (⟨s1, s2, "", ""⟩, some errStoreType)
               | some s3 =>
                 match storeString v4 with
                 | none => (⟨s1, s2, s3, ""⟩, some errStoreType)
                 | some s4 => ((⟨s1, s2, s3, s4⟩ : ServerInformation), none)) := rfl
      rw [hh, h1]
    · rintro s1 rfl h2
      have hh : notifier.GetServerInformation
          ⟨constConn ⟨none, [DBusValue.str s1, v2, v3, v4]⟩⟩ =
          (match storeString v2 with
           | none => (⟨s1, "", "", ""⟩, some errStoreType)
           | some s2 =>
             match storeString v3 with
             | none => (⟨s1, s2, "", ""⟩, some errStoreType)
             | some s3 =>
               match storeString v4 with
               | none => (⟨s1, s2, s3, ""⟩, some errStoreType)
               | some s4 => ((⟨s1, s2, s3, s4⟩ : ServerInformation), none)) := rfl
      rw [hh, h2]
    · rintro s1 s2 rfl rfl h3
      have hh : notifier.GetServerInformation
          ⟨constConn ⟨none, [DBusValue.str s1, DBusValue.str s2, v3, v4]⟩⟩ =
          (match storeString v3 with
           | none => (⟨s1, s2, "", ""⟩, some errStoreType)
           | some s3 =>
             match storeString v4 with
             | none => (⟨s1, s2, s3, ""⟩, some errStoreType)
             | some s4 => ((⟨s1, s2, s3, s4⟩ : ServerInformation), none)) := rfl
      rw [hh, h3]
    · rintro s1 s2 s3 rfl rfl rfl h4
      have hh : notifier.GetServerInformation
          ⟨constConn ⟨none,
            [DBusValue.str s1, DBusValue.str s2, DBusValue.str s3, v4]⟩⟩ =
          (match storeString v4 with
           | none => (⟨s1, s2, s3, ""⟩, some errStoreType)
           | some s4 => ((⟨s1, s2, s3, s4⟩ : ServerInformation), none)) := rfl
      rw [hh, h4]

/-- C6 witness: the concrete reply ("Notifier", "Acme", "1.2", "1.2")
decodes into the four fields in order; a `u32` in third position faults
the decode with exactly the first two fields populated; a one-element
reply is an arity fault with no field populated. -/
theorem getServerInformation_decode_order_and_zero_fill_witness :
    notifier.GetServerInformation
        ⟨constConn ⟨none,
          [DBusValue.str "Notifier", DBusValue.str "Acme",
           DBusValue.str "1.2", DBusValue.str "1.2"]⟩⟩ =
      (⟨"Notifier", "Acme", "1.2", "1.2"⟩, none) ∧
    notifier.GetServerInformation
        ⟨constConn ⟨none,
          [DBusValue.str "Notifier", DBusValue.str "Acme",
           DBusValue.u32 0, DBusValue.str "1.2"]⟩⟩ =
      (⟨"Notifier", "Acme", "", ""⟩, some errStoreType) ∧
    notifier.GetServerInformation ⟨constConn ⟨none, [DBusValue.str "Notifier"]⟩⟩ =
      (⟨"", "", "", ""⟩, some errStoreLength) :=
  ⟨(getServerInformation_decode_order_and_zero_fill
      [DBusValue.str "Notifier", DBusValue.str "Acme",
       DBusValue.str "1.2", DBusValue.str "1.2"]).1 "Notifier" "Acme" "1.2" "1.2" rfl,
   ((getServerInformation_decode_order_and_zero_fill
      [DBusValue.str "Notifier", DBusValue.str "Acme",
       DBusValue.u32 0, DBusValue.str "1.2"]).2.2.1
      (DBusValue.str "Notifier") (DBusValue.str "Acme")
      (DBusValue.u32 0) (DBusValue.str "1.2") rfl).2.2.1 "Notifier" "Acme" rfl rfl rfl,
   (getServerInformation_decode_order_and_zero_fill
      [DBusValue.str "Notifier"]).2.1 (by decide)⟩

/-- C7: a reply decoding to a sequence of capability strings is returned
exactly as received, in the server-defined order, with no error, no
sorting and no deduplication; in particular a double returning
["actions", "body"] yields exactly that sequence. -/
theorem getCapabilities_preserves_sequence (xs : List String) :
    notifier.GetCapabilities ⟨constConn ⟨none, [DBusValue.strList xs]⟩⟩ =
      (GoStrSlice.mk xs, none) ∧
    notifier.GetCapabilities ⟨constConn ⟨none, [DBusValue.strList ["actions", "body"]]⟩⟩ =
      (GoStrSlice.mk ["actions", "body"], none) ∧
    notifier.GetCapabilities
        ⟨constConn ⟨none, [DBusValue.strList ["body", "actions", "body"]]⟩⟩ =
      (GoStrSlice.mk ["body", "actions", "body"], none) := ⟨rfl, rfl, rfl⟩

/-- C8: the id accepted by `CloseNotification` (a generic signed integer)
is transmitted narrowed to an unsigned 32-bit integer — `uint32ofInt id`,
which equals `id` reduced modulo `2 ^ 32` and always lies below `2 ^ 32`
— and the narrowing is total, rejecting no input: for every remote
behaviour the single call carries exactly that narrowed value. -/
theorem closeNotification_narrows_mod_2_32 (id : Int)
    (f : String → String → String → Nat → List DBusValue → CallResult) :
    uint32ofInt id = (id % (2 ^ 32 : Int)).toNat ∧
    uint32ofInt id < 2 ^ 32 ∧
    (uint32ofInt id : Int) = id % (2 ^ 32 : Int) ∧
    notifier.CloseNotification ⟨spyConn f⟩ id =
      (let r := f dbusNotificationsInterface objectPath closeNotification 0
          [DBusValue.u32 (uint32ofInt id)];
       match r.err with
       | some e => (false, some e)
       | none => (true, none)) := by
  have e1 : (2 : Int) ^ 32 = 4294967296 := by norm_num
  have e2 : (2 : Nat) ^ 32 = 4294967296 := by norm_num
  have h1 : 0 ≤ id % (2 ^ 32 : Int) := Int.emod_nonneg id (by norm_num)
  refine ⟨rfl, ?_, ?_, rfl⟩
  · have h2 : id % (2 ^ 32 : Int) < 2 ^ 32 := Int.emod_lt_of_pos id (by norm_num)
    unfold uint32ofInt
    rw [e2]
    rw [e1] at h1 h2 ⊢
    omega
  · unfold uint32ofInt
    exact Int.toNat_of_nonneg h1

/-- C9: the four operations leave the client state unchanged: in
state-passing form each returns the receiver it was given, the result of
each is a function of the stored connection alone, and a `notifier`
holds no state beyond that single connection field. -/
theorem operations_leave_state_unchanged (x y : notifier) (n : Notification) (id : Int)
    (h : x.conn = y.conn) :
    (x.sendNotificationSt n).2 = x ∧
    x.getCapabilitiesSt.2 = x ∧
    (x.closeNotificationSt id).2 = x ∧
    x.getServerInformationSt.2 = x ∧
    x = y ∧
    x = ⟨x.conn⟩ := by
  obtain ⟨cx⟩ := x
  obtain ⟨cy⟩ := y
  cases h
  exact ⟨rfl, rfl, rfl, rfl, rfl, rfl⟩

/-- C9 witness: at a concrete notifier over a constant double, each
state-passing operation returns the notifier unchanged. -/
theorem operations_leave_state_unchanged_witness :
    ((⟨constConn ⟨none, []⟩⟩ : notifier).sendNotificationSt
        ⟨"", 0, "", "", "", [], [], 0⟩).2 = (⟨constConn ⟨none, []⟩⟩ : notifier) ∧
    ((⟨constConn ⟨none, []⟩⟩ : notifier).closeNotificationSt 1).2 =
      (⟨constConn ⟨none, []⟩⟩ : notifier) :=
  ⟨(operations_leave_state_unchanged ⟨constConn ⟨none, []⟩⟩ ⟨constConn ⟨none, []⟩⟩
      ⟨"", 0, "", "", "", [], [], 0⟩ 1 rfl).1,
   (operations_leave_state_unchanged ⟨constConn ⟨none, []⟩⟩ ⟨constConn ⟨none, []⟩⟩
      ⟨"", 0, "", "", "", [], [], 0⟩ 1 rfl).2.2.1⟩

/-- C10: the `SendNotification` method of `notifier` and the free
convenience function `SendNotification` are one code path: on every
connection and notification they return the same id and the same error,
also through the `New` constructor. -/
theorem sendNotification_method_eq_free (conn : Conn) (n : Notification) :
    notifier.sendNotification ⟨conn⟩ n = SendNotification conn n ∧
    (New conn).sendNotification n = SendNotification conn n := ⟨rfl, rfl⟩
